import Mathlib

/-!
Verification of the content-lifecycle core of the twitter_autobot service.

The definitions below are a shallow embedding of the Python source:
  * `database.py`  — the draft store (users / ai_generated_content_history rows)
  * `main.py`      — the confirm route `confirm_content_route`
  * `crew.py`      — the content generator `LightweightCrew.kickoff`
  * `api/cron.py`  — the batch job and its HTTP trigger

Machine-level details that the claims do not touch (SQL plumbing, Flask
session handling, template rendering) are abstracted; every branch that an
embedded function takes mirrors a branch of the source.  External
collaborators (the publish call, the text-generation provider, SMTP, JSON
parsing) are parameters of the embedded functions, with their observable
behaviours enumerated the way the call sites distinguish them.
-/

/-- Python string helpers used by the source are embedded on code-point
lists: `str.lower()` maps `Char.toLower` over the code points. -/
def pyLower (s : String) : String := String.mk (s.data.map Char.toLower)

/-- `str.strip()`: remove leading and trailing whitespace code points. -/
def pyStrip (s : String) : String :=
  String.mk (((s.data.dropWhile Char.isWhitespace).reverse.dropWhile
    Char.isWhitespace).reverse)

/-- Python's `needle in hay` on strings: contiguous-substring test. -/
def strContains (hay needle : String) : Bool :=
  decide (needle.data <:+: hay.data)

/-! ## Data model (§3 of the spec, `database.py` schema) -/

/-- The status column of `ai_generated_content_history`. -/
inductive Status where
  | pending_confirmation
  | posted
  | failed_to_post
  | failed_user_inactive
deriving DecidableEq, Repr

/-- Terminal states of the draft state machine (glossary of the spec). -/
def Status.isTerminal : Status → Bool
  | .pending_confirmation => false
  | .posted => true
  | .failed_to_post => true
  | .failed_user_inactive => true

/-- A row of the `users` table. -/
structure UserRow where
  id : Nat
  twitter_id : String
  screen_name : String
  oauth_token : String
  oauth_token_secret : String
  email : Option String
  topics : Option String
  is_active : Bool
deriving DecidableEq, Repr

/-- A row of the `ai_generated_content_history` table.  Timestamps are
abstracted to `Nat`; `posted_at` is nullable (NULL on insert). -/
structure ContentRow where
  id : Nat
  user_id : Nat
  generated_content : String
  status : Status
  confirmation_token : Option String
  posted_at : Option Nat
deriving DecidableEq, Repr

/-- The two tables of the persisted schema. -/
structure DB where
  users : List UserRow
  drafts : List ContentRow
deriving DecidableEq, Repr

/-! ## Store operations (`database.py`) -/

/-- `SELECT id, topics FROM users WHERE twitter_id = ?` with `fetchone`:
first matching row. -/
def find_user_by_twitter_id (db : DB) (twitter_id : String) : Option UserRow :=
  db.users.find? (fun u => u.twitter_id = twitter_id)

/-- Fresh surrogate id for an insert (AUTOINCREMENT / SERIAL). -/
def next_user_id (db : DB) : Nat :=
  db.users.foldr (fun u acc => max u.id acc) 0 + 1

/-- Fresh surrogate id for a draft insert. -/
def next_content_id (db : DB) : Nat :=
  db.drafts.foldr (fun h acc => max h.id acc) 0 + 1

/-- `database.py create_or_update_user`: look the user up by `twitter_id`;
if present, update (the PostgreSQL branch writes `email` and the resolved
topics unconditionally, the SQLite branch only writes `email`/`topics`
when the resolved values are not None); if absent, insert with
`is_active = TRUE`.  `use_postgres` is the module-level `USE_POSTGRES`
flag, `final_topics` mirrors the variable of the same name. -/
def create_or_update_user (use_postgres : Bool) (db : DB)
    (twitter_id screen_name oauth_token oauth_token_secret : String)
    (email : Option String) (topics : Option String) : DB :=
  match find_user_by_twitter_id db twitter_id with
  | some row =>
    let final_topics := match topics with
      | none => row.topics
      | some t => some t
    if use_postgres then
      { db with users := db.users.map (fun u =>
          if u.id = row.id then
            { u with screen_name := screen_name, oauth_token := oauth_token,
                     oauth_token_secret := oauth_token_secret,
                     email := email, topics := final_topics, is_active := true }
          else u) }
    else
      { db with users := db.users.map (fun u =>
          if u.id = row.id then
            { u with screen_name := screen_name, oauth_token := oauth_token,
                     oauth_token_secret := oauth_token_secret,
                     is_active := true,
                     email := match email with
                       | none => u.email
                       | some e => some e,
                     topics := match final_topics with
                       | none => u.topics
                       | some t => some t }
          else u) }
  | none =>
    { db with users := db.users ++
        [⟨next_user_id db, twitter_id, screen_name, oauth_token,
          oauth_token_secret, email, topics, true⟩] }

/-- `database.py add_generated_content`: single insert; `posted_at` takes
the schema default NULL.  Returns the new db and the fresh content id. -/
def add_generated_content (db : DB) (user_id : Nat) (generated_content : String)
    (status : Status) (confirmation_token : Option String) : DB × Nat :=
  let cid := next_content_id db
  ({ db with drafts := db.drafts ++
      [⟨cid, user_id, generated_content, status, confirmation_token, none⟩] },
   cid)

/-- The joined row returned by `get_content_by_confirmation_token`
(`SELECT h.*, u.screen_name, u.oauth_token, u.oauth_token_secret,
u.email AS user_email, u.is_active AS user_is_active ... JOIN users`). -/
structure TokenLookup where
  content : ContentRow
  screen_name : String
  oauth_token : String
  oauth_token_secret : String
  user_email : Option String
  user_is_active : Bool
deriving DecidableEq, Repr

/-- `database.py get_content_by_confirmation_token`: first draft carrying
the token, inner-joined with its owning user. -/
def get_content_by_confirmation_token (db : DB) (token : String) :
    Option TokenLookup :=
  match db.drafts.find? (fun h => h.confirmation_token = some token) with
  | none => none
  | some h =>
    match db.users.find? (fun u => u.id = h.user_id) with
    | none => none
    | some u =>
      some ⟨h, u.screen_name, u.oauth_token, u.oauth_token_secret,
            u.email, u.is_active⟩

/-- The per-row effect of `update_content_status`: rows whose id matches
get the new status; `posted_at` is written only when the argument is
truthy (the `if posted_at:` branch of the source). -/
def apply_status_update (content_id : Nat) (status : Status)
    (posted_at : Option Nat) (h : ContentRow) : ContentRow :=
  if h.id = content_id then
    match posted_at with
    | some t => { h with status := status, posted_at := some t }
    | none => { h with status := status }
  else h

/-- `database.py update_content_status`: atomic UPDATE by content id. -/
def update_content_status (db : DB) (content_id : Nat) (status : Status)
    (posted_at : Option Nat) : DB :=
  { db with drafts := db.drafts.map (apply_status_update content_id status posted_at) }

/-! ## Confirm route (`main.py confirm_content_route`) -/

/-- Observable behaviours of `twitter_service.post_tweet` from the call
site's point of view: `(True, data)`, `(False, message)`, or an
exception escaping the call (handled by the route's `except`). -/
inductive PublishBehavior where
  | success
  | failure (msg : String)
  | raises (msg : String)

/-- The flash indication the route leaves for the user (one per branch of
the source; `already_processed` is the informational outcome,
`user_inactive`, `failed_permissions`, `failed_generic` and
`failed_exception` are error outcomes, `posted_ok` is the success one). -/
inductive ConfirmOutcome where
  | invalid_link
  | already_processed (st : Status)
  | user_inactive
  | posted_ok
  | failed_permissions (msg : String)
  | failed_generic (msg : String)
  | failed_exception (msg : String)
deriving DecidableEq, Repr

/-- Result of one confirm invocation: the store afterwards, the flash
outcome, and whether `email_service.send_email` was invoked. -/
structure ConfirmResult where
  db : DB
  outcome : ConfirmOutcome
  emailed : Bool
deriving DecidableEq, Repr

/-- `main.py confirm_content_route`: look the draft up by token, reject a
missing token, reject (informationally) a non-pending draft, transition an
inactive owner's draft to `failed_user_inactive`, otherwise publish and
transition to `posted` (stamping `posted_at := now`) or `failed_to_post`.
`publish` receives the draft text and the stored credential pair. -/
def confirm_content_route (publish : String → String → String → PublishBehavior)
    (now : Nat) (db : DB) (token : String) : ConfirmResult :=
  match get_content_by_confirmation_token db token with
  | none => ⟨db, .invalid_link, false⟩
  | some content_record =>
    if content_record.content.status ≠ .pending_confirmation then
      ⟨db, .already_processed content_record.content.status, false⟩
    else if content_record.user_is_active = false then
      ⟨update_content_status db content_record.content.id .failed_user_inactive none,
       .user_inactive, false⟩
    else
      match publish content_record.content.generated_content
              content_record.oauth_token content_record.oauth_token_secret with
      | .success =>
        ⟨update_content_status db content_record.content.id .posted (some now),
         .posted_ok, content_record.user_email.isSome⟩
      | .failure msg =>
        ⟨update_content_status db content_record.content.id .failed_to_post none,
         if strContains msg "403 Forbidden" ||
            strContains msg "You are not permitted to perform this action" then
           .failed_permissions msg
         else .failed_generic msg,
         false⟩
      | .raises msg =>
        ⟨update_content_status db content_record.content.id .failed_to_post none,
         .failed_exception msg, false⟩

/-! ## Content generator (`crew.py LightweightCrew`) -/

/-- The configured provider (`ai_provider`): Gemini or OpenAI. -/
inductive Provider where
  | gemini
  | openai
deriving DecidableEq, Repr

/-- Behaviour of one provider call: the raw response text, or any
exception (caught by `kickoff`'s `except`). -/
inductive ProviderResponse where
  | ok (text : String)
  | err (msg : String)
deriving DecidableEq, Repr

/-- The character-limit rule applied by `kickoff` and by the fallback:
`if len(t) > 280: t = t[:277] + "..."` on code points. -/
def truncate_to_280 (s : String) : String :=
  if s.length > 280 then String.mk (s.data.take 277) ++ "..." else s

/-- The six parametrized fallback templates of
`_fallback_content_generation`, parametrized by the joined topics. -/
def fallback_templates (topics_str : String) : List String :=
  ["Exploring the latest developments in " ++ topics_str ++
     ". What trends are you seeing in your industry?",
   "The future of " ++ topics_str ++
     " is evolving rapidly. How are you adapting to these changes?",
   "Key insights on " ++ topics_str ++
     " that every professional should know. What's your perspective?",
   "Breaking down the impact of " ++ topics_str ++
     " on modern business. What patterns do you notice?",
   "The intersection of " ++ topics_str ++
     " is creating new opportunities. Where do you see the biggest potential?",
   "Understanding " ++ topics_str ++
     " has become essential for staying competitive. What's your experience?"]

/-- The fixed sentence returned when no topics were supplied. -/
def generic_fallback_sentence : String :=
  "Staying ahead of the curve with the latest tech innovations. What's catching your attention today?"

/-- `crew.py _fallback_content_generation`: with topics, join the first 3
with ", ", pick one of the six templates (`random.choice` is modelled by
the universally quantified index `pick`) and apply the 280 rule; with no
topics, the fixed generic sentence. -/
def fallback_content_generation (user_topics : List String) (pick : Fin 6) :
    String :=
  if user_topics ≠ [] then
    let topics_str := String.intercalate ", " (user_topics.take 3)
    truncate_to_280 ((fallback_templates topics_str).get
      ⟨pick.val, by simp [fallback_templates]⟩)
  else
    generic_fallback_sentence

/-- The `topics_text` interpolated into the provider prompt:
`", ".join(user_topics) if user_topics else "AI, technology, business"`. -/
def prompt_topics_text (user_topics : List String) : String :=
  if user_topics ≠ [] then String.intercalate ", " user_topics
  else "AI, technology, business"

/-- `crew.py LightweightCrew.kickoff`.  `client` is the module-level
`ai_client` (None when no provider is configured); `response` is the
provider call's behaviour; `pick` models `random.choice`.  Returns the
generated text together with the topics text of the provider call that
was made (`none` when no provider call happened).  On a provider
exception the `except` falls back to `_fallback_content_generation`;
on a response the stripped text is trimmed to 280 code points. -/
def kickoff (client : Option Provider) (response : ProviderResponse)
    (pick : Fin 6) (user_topics : List String) : String × Option String :=
  match client with
  | none => (fallback_content_generation user_topics pick, none)
  | some _ =>
    match response with
    | .err _ =>
      (fallback_content_generation user_topics pick,
       some (prompt_topics_text user_topics))
    | .ok text =>
      (truncate_to_280 (pyStrip text), some (prompt_topics_text user_topics))

/-! ## Batch trigger endpoint (`api/cron.py trigger_content_generation`) -/

/-- The header data the trigger route inspects. -/
structure TriggerRequest where
  user_agent : String
  auth_header : Option String
deriving DecidableEq, Repr

/-- `'vercel-cron' in user_agent.lower()`. -/
def is_vercel_cron_request (user_agent : String) : Bool :=
  strContains (pyLower user_agent) "vercel-cron"

/-- Outcome of the trigger route: 401, or the job ran (the route's own
`except` converting a job exception to a 500 is not claim-relevant and
is folded into `job_ran = true`). -/
structure TriggerResult where
  unauthorized : Bool
  job_ran : Bool
deriving DecidableEq, Repr

/-- `api/cron.py trigger_content_generation` access control:
reject with 401 exactly when `CRON_SECRET` is set (non-empty), the
user agent is not Vercel-cron, and the Authorization header differs
from `Bearer <secret>`; otherwise run the job.  `cron_secret` models
`os.environ.get('CRON_SECRET')` (None when unset; Python truthiness
makes the empty string behave as unset). -/
def trigger_content_generation (cron_secret : Option String)
    (req : TriggerRequest) : TriggerResult :=
  let secret := cron_secret.getD ""
  if secret ≠ "" ∧ is_vercel_cron_request req.user_agent = false ∧
      req.auth_header ≠ some ("Bearer " ++ secret) then
    ⟨true, false⟩
  else
    ⟨false, true⟩

/-! ## Batch job (`api/cron.py scheduled_content_generation_job`) -/

/-- External collaborators of one per-user iteration of the batch job,
each of which can raise (modelled by `Except`): `json.loads` on the
stored topics, `crew.kickoff`, `db.add_generated_content` (its
connection setup can raise before its internal handler), and the email
render/send step.  `mint_token` is `str(uuid.uuid4())`. -/
structure CronEnv where
  parse_topics : String → Except String (List String)
  generate : List String → Except String String
  add_content : DB → Nat → String → String → Except String DB
  send_confirmation : String → String → String → Except String Bool
  mint_token : Nat → String

/-- The body of the per-user `try` block of
`scheduled_content_generation_job`: parse the stored topics, skip when
empty, generate, skip when the text is falsy, insert the draft in
`pending_confirmation` with a fresh token, then email when the user has
an address.  Returns the store as mutated so far together with the
normal/exceptional outcome of the body. -/
def process_user (env : CronEnv) (db : DB) (u : UserRow) :
    DB × Except String Unit :=
  match env.parse_topics (u.topics.getD "") with
  | .error e => (db, .error e)
  | .ok topics_list =>
    if topics_list = [] then (db, .ok ())
    else
      match env.generate topics_list with
      | .error e => (db, .error e)
      | .ok generated_content =>
        if generated_content = "" then (db, .ok ())
        else
          let confirmation_token := env.mint_token u.id
          match env.add_content db u.id generated_content confirmation_token with
          | .error e => (db, .error e)
          | .ok db' =>
            match u.email with
            | none => (db', .ok ())
            | some addr =>
              match env.send_confirmation addr generated_content
                      confirmation_token with
              | .error e => (db', .error e)
              | .ok _ => (db', .ok ())

/-- One iteration of the batch loop: run the per-user body on the store
accumulated so far and record its (normal or caught) outcome. -/
def job_step (env : CronEnv) (acc : DB × List (Except String Unit))
    (u : UserRow) : DB × List (Except String Unit) :=
  let step := process_user env acc.1 u
  (step.1, acc.2 ++ [step.2])

/-- `api/cron.py scheduled_content_generation_job`: a sequential pass over
the eligible users; each iteration's body runs under `try`, its outcome
(normal or the caught exception) is recorded and the loop continues. -/
def scheduled_content_generation_job (env : CronEnv) (db : DB)
    (users : List UserRow) : DB × List (Except String Unit) :=
  users.foldl (job_step env) (db, [])

/-! ## General helper lemmas -/

theorem string_length_mk (l : List Char) : (String.mk l).length = l.length := rfl

theorem string_eq_empty_of_length_zero {s : String} (h : s.length = 0) :
    s = "" := by
  cases s with
  | mk data =>
    have hd : data = [] := List.length_eq_zero.mp h
    subst hd
    rfl

theorem string_ne_empty_of_length_pos {s : String} (h : 0 < s.length) :
    s ≠ "" := by
  intro he
  subst he
  simp at h

theorem append3_ne_empty (a x b : String) (ha : 0 < a.length) :
    a ++ x ++ b ≠ "" := by
  apply string_ne_empty_of_length_pos
  rw [String.length_append, String.length_append]
  omega

/-! ## Truncation rule lemmas -/

theorem truncate_to_280_of_le {s : String} (h : s.length ≤ 280) :
    truncate_to_280 s = s := by
  unfold truncate_to_280
  rw [if_neg (by omega)]

theorem truncate_to_280_of_gt {s : String} (h : 280 < s.length) :
    truncate_to_280 s = String.mk (s.data.take 277) ++ "..." := by
  unfold truncate_to_280
  rw [if_pos (by omega)]

theorem truncate_to_280_length_le (s : String) :
    (truncate_to_280 s).length ≤ 280 := by
  by_cases h : s.length ≤ 280
  · rw [truncate_to_280_of_le h]; exact h
  · push_neg at h
    rw [truncate_to_280_of_gt h, String.length_append, string_length_mk,
      List.length_take]
    have : s.data.length = s.length := rfl
    have h3 : ("...").length = 3 := rfl
    omega

theorem truncate_to_280_length_of_gt {s : String} (h : 280 < s.length) :
    (truncate_to_280 s).length = 280 := by
  rw [truncate_to_280_of_gt h, String.length_append, string_length_mk,
    List.length_take]
  have : s.data.length = s.length := rfl
  have h3 : ("...").length = 3 := by decide
  omega

theorem truncate_to_280_data_of_gt {s : String} (h : 280 < s.length) :
    (truncate_to_280 s).data = s.data.take 277 ++ ("...").data := by
  rw [truncate_to_280_of_gt h, String.data_append]

theorem truncate_to_280_marker_of_gt {s : String} (h : 280 < s.length) :
    (truncate_to_280 s).data.drop 277 = ("...").data := by
  rw [truncate_to_280_data_of_gt h]
  have hlen : (s.data.take 277).length = 277 := by
    rw [List.length_take]
    have : s.data.length = s.length := rfl
    omega
  exact List.drop_left' hlen

theorem truncate_to_280_ne_empty {s : String} (h : s ≠ "") :
    truncate_to_280 s ≠ "" := by
  by_cases hl : s.length ≤ 280
  · rw [truncate_to_280_of_le hl]; exact h
  · push_neg at hl
    apply string_ne_empty_of_length_pos
    rw [truncate_to_280_length_of_gt hl]
    omega

/-! ## Generator lemmas -/

theorem fallback_templates_ne_empty (topics_str : String) :
    ∀ t ∈ fallback_templates topics_str, t ≠ "" := by
  intro t ht
  fin_cases ht <;> exact append3_ne_empty _ _ _ (by decide)

theorem fallback_content_generation_ne_empty (user_topics : List String)
    (pick : Fin 6) : fallback_content_generation user_topics pick ≠ "" := by
  unfold fallback_content_generation
  by_cases h : user_topics = []
  · simp [h]
    decide
  · rw [if_pos (by simpa using h)]
    apply truncate_to_280_ne_empty
    exact fallback_templates_ne_empty _ _ (List.get_mem _ _ _)

theorem fallback_content_generation_length_le (user_topics : List String)
    (pick : Fin 6) :
    (fallback_content_generation user_topics pick).length ≤ 280 := by
  unfold fallback_content_generation
  by_cases h : user_topics = []
  · simp [h]
    decide
  · rw [if_pos (by simpa using h)]
    exact truncate_to_280_length_le _

/-! ## Claim C3 — generator totality and output bounds -/

/-- C3 counterexample: the generator is total and bounded, but not always
non-empty.  When a provider is configured and its call succeeds with text
that strips to nothing, `kickoff` returns the empty string. -/
theorem kickoff_empty_output_cex :
    (kickoff (some Provider.gemini) (ProviderResponse.ok " ")
      ⟨0, by decide⟩ []).1 = "" := by decide

/-- C3 (amended): for every client configuration, provider behaviour,
template choice and topic list, the generated text has at most 280 code
points, and it is empty only when a configured provider succeeded with
text whose stripped form is empty (in every other case — no provider,
provider error, or non-blank provider text — the result is non-empty). -/
theorem kickoff_total_and_bounded (client : Option Provider)
    (response : ProviderResponse) (pick : Fin 6) (user_topics : List String) :
    ((kickoff client response pick user_topics).1).length ≤ 280 ∧
    ((kickoff client response pick user_topics).1 = "" →
      ∃ p text, client = some p ∧ response = ProviderResponse.ok text ∧
        pyStrip text = "") := by
  match client with
  | none =>
    refine ⟨fallback_content_generation_length_le _ _, fun h => ?_⟩
    exact absurd h (fallback_content_generation_ne_empty _ _)
  | some p =>
    match response with
    | .err m =>
      refine ⟨fallback_content_generation_length_le _ _, fun h => ?_⟩
      exact absurd h (fallback_content_generation_ne_empty _ _)
    | .ok text =>
      refine ⟨truncate_to_280_length_le _, fun h => ⟨p, text, rfl, rfl, ?_⟩⟩
      by_contra hne
      exact truncate_to_280_ne_empty hne h

/-- C3 witness: the amended theorem evaluated at a concrete input. -/
theorem kickoff_total_and_bounded_witness :
    ((kickoff none (ProviderResponse.ok "x") ⟨0, by decide⟩ ["AI"]).1).length ≤ 280 ∧
    ((kickoff none (ProviderResponse.ok "x") ⟨0, by decide⟩ ["AI"]).1 = "" →
      ∃ p text, (none : Option Provider) = some p ∧
        ProviderResponse.ok "x" = ProviderResponse.ok text ∧ pyStrip text = "") :=
  kickoff_total_and_bounded none (ProviderResponse.ok "x") ⟨0, by decide⟩ ["AI"]

/-! ## Claim C4 — empty topic list behaviour -/

/-- C4 counterexample: with a provider configured, an empty topic list
does trigger a provider call (with the default topics interpolated into
the prompt), and the returned text is the provider's text, not the fixed
generic fallback sentence. -/
theorem kickoff_empty_topics_cex :
    (kickoff (some Provider.gemini) (ProviderResponse.ok "Quantum leaps ahead.")
        ⟨0, by decide⟩ []).1 = "Quantum leaps ahead." ∧
    (kickoff (some Provider.gemini) (ProviderResponse.ok "Quantum leaps ahead.")
        ⟨0, by decide⟩ []).2 = some "AI, technology, business" ∧
    "Quantum leaps ahead." ≠ generic_fallback_sentence := by decide

/-- C4 (amended): with an empty topic list, the fixed generic fallback
sentence is returned — with no provider call — exactly on the no-provider
path or the provider-error path; when a provider is configured, a provider
call is made with the default topics "AI, technology, business". -/
theorem kickoff_empty_topics (response : ProviderResponse) (pick : Fin 6) :
    (kickoff none response pick []).1 = generic_fallback_sentence ∧
    (kickoff none response pick []).2 = none ∧
    (∀ p msg, (kickoff (some p) (ProviderResponse.err msg) pick []).1 =
      generic_fallback_sentence) ∧
    (∀ p resp, (kickoff (some p) resp pick []).2 =
      some "AI, technology, business") := by
  refine ⟨?_, ?_, fun p msg => ?_, fun p resp => ?_⟩
  · cases response <;> simp [kickoff, fallback_content_generation]
  · cases response <;> simp [kickoff]
  · simp [kickoff, fallback_content_generation]
  · cases resp <;> simp [kickoff, prompt_topics_text]

/-! ## Claim C7 — the truncation law -/

/-- The unconstrained generated text of one `kickoff` invocation, before
the 280 rule is applied: the stripped provider response on the
provider-success path, the selected fallback template on the no-client
and provider-error paths with topics, and the fixed generic sentence with
no topics (which the source returns without a truncation check). -/
def unconstrained_generated_text (client : Option Provider)
    (response : ProviderResponse) (pick : Fin 6) (user_topics : List String) :
    String :=
  match client, response with
  | some _, ProviderResponse.ok text => pyStrip text
  | _, _ =>
    if user_topics ≠ [] then
      (fallback_templates (String.intercalate ", " (user_topics.take 3))).get
        ⟨pick.val, by simp [fallback_templates]⟩
    else generic_fallback_sentence

/-- C7: on every generator input — any client configuration, provider
behaviour, template pick and topic list — the returned text is exactly
the 280 rule applied to that input's unconstrained generated text:
when the unconstrained text exceeds 280 code points, the result is its
first 277 code points followed by the 3-character marker "..." (length
exactly 280, marker in the last 3 positions); unconstrained text of at
most 280 code points is returned unmodified. -/
theorem kickoff_truncation_law (client : Option Provider)
    (response : ProviderResponse) (pick : Fin 6) (user_topics : List String) :
    (kickoff client response pick user_topics).1 =
      truncate_to_280
        (unconstrained_generated_text client response pick user_topics) ∧
    (280 < (unconstrained_generated_text client response pick
        user_topics).length →
      ((kickoff client response pick user_topics).1).length = 280 ∧
      ((kickoff client response pick user_topics).1).data =
        (unconstrained_generated_text client response pick
          user_topics).data.take 277 ++ ("...").data ∧
      ((kickoff client response pick user_topics).1).data.drop 277 =
        ("...").data) ∧
    ((unconstrained_generated_text client response pick user_topics).length
        ≤ 280 →
      (kickoff client response pick user_topics).1 =
        unconstrained_generated_text client response pick user_topics) := by
  have hfb : fallback_content_generation user_topics pick =
      truncate_to_280 (if user_topics ≠ [] then
        (fallback_templates (String.intercalate ", " (user_topics.take 3))).get
          ⟨pick.val, by simp [fallback_templates]⟩
      else generic_fallback_sentence) := by
    unfold fallback_content_generation
    by_cases ht : user_topics = []
    · rw [if_neg (not_not_intro ht), if_neg (not_not_intro ht)]
      exact (truncate_to_280_of_le (by decide)).symm
    · rw [if_pos ht, if_pos ht]
  have h1 : (kickoff client response pick user_topics).1 =
      truncate_to_280
        (unconstrained_generated_text client response pick user_topics) := by
    cases client with
    | none =>
      cases response with
      | ok t => exact hfb
      | err m => exact hfb
    | some p =>
      cases response with
      | ok t => rfl
      | err m => exact hfb
  refine ⟨h1, fun h => ?_, fun h => ?_⟩
  · rw [h1]
    exact ⟨truncate_to_280_length_of_gt h, truncate_to_280_data_of_gt h,
      truncate_to_280_marker_of_gt h⟩
  · rw [h1]
    exact truncate_to_280_of_le h

/-- A 300-code-point topic, making the selected fallback template exceed
280 code points. -/
def long_topic : String := String.mk (List.replicate 300 'a')

set_option maxRecDepth 8000 in
/-- C7 witness: the truncation law applied on the fallback path (provider
error, over-280 template built from a 300-code-point topic: truncated
branch) and on the provider-success path (short text: identity branch). -/
theorem kickoff_truncation_law_witness :
    (280 < (unconstrained_generated_text none (ProviderResponse.err "boom")
        ⟨0, by decide⟩ [long_topic]).length ∧
      ((kickoff none (ProviderResponse.err "boom")
          ⟨0, by decide⟩ [long_topic]).1).length = 280 ∧
      ((kickoff none (ProviderResponse.err "boom")
          ⟨0, by decide⟩ [long_topic]).1).data =
        (unconstrained_generated_text none (ProviderResponse.err "boom")
          ⟨0, by decide⟩ [long_topic]).data.take 277 ++ ("...").data ∧
      ((kickoff none (ProviderResponse.err "boom")
          ⟨0, by decide⟩ [long_topic]).1).data.drop 277 = ("...").data) ∧
    ((unconstrained_generated_text (some Provider.gemini)
        (ProviderResponse.ok "short text") ⟨0, by decide⟩ ["AI"]).length
          ≤ 280 ∧
      (kickoff (some Provider.gemini) (ProviderResponse.ok "short text")
          ⟨0, by decide⟩ ["AI"]).1 =
        unconstrained_generated_text (some Provider.gemini)
          (ProviderResponse.ok "short text") ⟨0, by decide⟩ ["AI"]) :=
  ⟨⟨by decide,
    (kickoff_truncation_law none (ProviderResponse.err "boom")
      ⟨0, by decide⟩ [long_topic]).2.1 (by decide)⟩,
   by decide,
   (kickoff_truncation_law (some Provider.gemini)
      (ProviderResponse.ok "short text") ⟨0, by decide⟩ ["AI"]).2.2
     (by decide)⟩

/-! ## Store lemmas for the confirm route -/

theorem apply_status_update_token (cid : Nat) (st : Status) (pa : Option Nat)
    (h : ContentRow) :
    (apply_status_update cid st pa h).confirmation_token =
      h.confirmation_token := by
  unfold apply_status_update
  by_cases hh : h.id = cid
  · rw [if_pos hh]; cases pa <;> rfl
  · rw [if_neg hh]

theorem apply_status_update_user_id (cid : Nat) (st : Status) (pa : Option Nat)
    (h : ContentRow) :
    (apply_status_update cid st pa h).user_id = h.user_id := by
  unfold apply_status_update
  by_cases hh : h.id = cid
  · rw [if_pos hh]; cases pa <;> rfl
  · rw [if_neg hh]

theorem apply_status_update_id (cid : Nat) (st : Status) (pa : Option Nat)
    (h : ContentRow) :
    (apply_status_update cid st pa h).id = h.id := by
  unfold apply_status_update
  by_cases hh : h.id = cid
  · rw [if_pos hh]; cases pa <;> rfl
  · rw [if_neg hh]

theorem apply_status_update_self (st : Status) (pa : Option Nat)
    (h : ContentRow) :
    (apply_status_update h.id st pa h).status = st := by
  unfold apply_status_update
  rw [if_pos rfl]
  cases pa <;> rfl

theorem apply_status_update_other {cid : Nat} (st : Status) (pa : Option Nat)
    {h : ContentRow} (hne : h.id ≠ cid) :
    apply_status_update cid st pa h = h := by
  unfold apply_status_update
  rw [if_neg hne]

theorem find_token_map (l : List ContentRow) (cid : Nat) (st : Status)
    (pa : Option Nat) (token : String) :
    (l.map (apply_status_update cid st pa)).find?
        (fun h => h.confirmation_token = some token) =
      (l.find? (fun h => h.confirmation_token = some token)).map
        (apply_status_update cid st pa) := by
  rw [List.find?_map]
  have hp : ((fun h => decide (h.confirmation_token = some token)) ∘
      apply_status_update cid st pa) =
      (fun h : ContentRow => decide (h.confirmation_token = some token)) := by
    funext h
    simp [Function.comp, apply_status_update_token]
  rw [hp]

theorem get_content_after_update (db : DB) (cid : Nat) (st : Status)
    (pa : Option Nat) (token : String) :
    get_content_by_confirmation_token (update_content_status db cid st pa) token
      = (get_content_by_confirmation_token db token).map
          (fun r => { r with content := apply_status_update cid st pa r.content }) := by
  unfold get_content_by_confirmation_token update_content_status
  simp only [find_token_map]
  cases hf : db.drafts.find? (fun h => h.confirmation_token = some token) with
  | none => simp [hf]
  | some h =>
    simp only [hf, Option.map_some', apply_status_update_user_id]
    cases hu : db.users.find? (fun u => u.id = h.user_id) with
    | none => simp [hu]
    | some u => simp [hu]

theorem get_content_mem {db : DB} {token : String} {rec : TokenLookup}
    (h : get_content_by_confirmation_token db token = some rec) :
    rec.content ∈ db.drafts := by
  unfold get_content_by_confirmation_token at h
  cases hf : db.drafts.find? (fun h => h.confirmation_token = some token) with
  | none => simp [hf] at h
  | some c =>
    simp only [hf] at h
    cases hu : db.users.find? (fun u => u.id = c.user_id) with
    | none => simp [hu] at h
    | some u =>
      simp only [hu] at h
      have hc : rec.content = c := by
        cases h
        rfl
      rw [hc]
      exact List.mem_of_find?_eq_some hf

theorem lookup_after_self_update {db : DB} {token : String} {rec : TokenLookup}
    (st : Status) (pa : Option Nat)
    (h1 : get_content_by_confirmation_token db token = some rec) :
    get_content_by_confirmation_token
        (update_content_status db rec.content.id st pa) token =
      some { rec with content := apply_status_update rec.content.id st pa rec.content } := by
  rw [get_content_after_update, h1, Option.map_some']

theorem second_confirm_noop (publish : String → String → String → PublishBehavior)
    (now : Nat) {db : DB} {token : String} {rec : TokenLookup}
    (h : get_content_by_confirmation_token db token = some rec)
    (hs : rec.content.status ≠ Status.pending_confirmation) :
    confirm_content_route publish now db token =
      ⟨db, ConfirmOutcome.already_processed rec.content.status, false⟩ := by
  unfold confirm_content_route
  simp only [h]
  rw [if_pos hs]

/-- Write-site characterization of the confirm route: either the store is
left untouched, or the looked-up draft was observed in
`pending_confirmation` and a single status update ran, to `posted` (with
`posted_at := now`), `failed_to_post`, or `failed_user_inactive` (both
without a `posted_at` argument). -/
theorem confirm_db_cases (publish : String → String → String → PublishBehavior)
    (now : Nat) (db : DB) (token : String) :
    (confirm_content_route publish now db token).db = db ∨
    ∃ rec st pa,
      get_content_by_confirmation_token db token = some rec ∧
      rec.content.status = Status.pending_confirmation ∧
      ((st = Status.posted ∧ pa = some now) ∨
        (st = Status.failed_to_post ∧ pa = none) ∨
        (st = Status.failed_user_inactive ∧ pa = none)) ∧
      (confirm_content_route publish now db token).db =
        update_content_status db rec.content.id st pa := by
  unfold confirm_content_route
  cases hv : get_content_by_confirmation_token db token with
  | none => exact Or.inl rfl
  | some rec =>
    dsimp only
    by_cases hs : rec.content.status ≠ Status.pending_confirmation
    · rw [if_pos hs]
      exact Or.inl rfl
    · rw [if_neg hs]
      push_neg at hs
      by_cases ha : rec.user_is_active = false
      · rw [if_pos ha]
        exact Or.inr ⟨rec, Status.failed_user_inactive, none, rfl, hs,
          Or.inr (Or.inr ⟨rfl, rfl⟩), rfl⟩
      · rw [if_neg ha]
        cases publish rec.content.generated_content rec.oauth_token
            rec.oauth_token_secret with
        | success =>
          exact Or.inr ⟨rec, Status.posted, some now, rfl, hs,
            Or.inl ⟨rfl, rfl⟩, rfl⟩
        | failure msg =>
          exact Or.inr ⟨rec, Status.failed_to_post, none, rfl, hs,
            Or.inr (Or.inl ⟨rfl, rfl⟩), rfl⟩
        | raises msg =>
          exact Or.inr ⟨rec, Status.failed_to_post, none, rfl, hs,
            Or.inr (Or.inl ⟨rfl, rfl⟩), rfl⟩

/-! ## Claim C1 — legal status transitions only -/

/-- C1: per confirm invocation and per draft row, the status changes only
from an observed `pending_confirmation` and only to one of the three
terminal states; a draft observed in a terminal state is untouched.
`hnodup` is the primary-key uniqueness of the content ids. -/
theorem confirm_legal_transitions
    (publish : String → String → String → PublishBehavior) (now : Nat)
    (db : DB) (token : String) (i : Nat) (old new : ContentRow)
    (hnodup : (db.drafts.map ContentRow.id).Nodup)
    (hold : db.drafts[i]? = some old)
    (hnew : ((confirm_content_route publish now db token).db).drafts[i]?
      = some new) :
    (old.status.isTerminal = true → new = old) ∧
    (new.status ≠ old.status →
      old.status = Status.pending_confirmation ∧
      (new.status = Status.posted ∨ new.status = Status.failed_to_post ∨
        new.status = Status.failed_user_inactive)) := by
  rcases confirm_db_cases publish now db token with hsame | ⟨rec, st, pa, hlook, hpend, hst, hdb⟩
  · rw [hsame, hold] at hnew
    have hen : new = old := by cases hnew; rfl
    subst hen
    exact ⟨fun _ => rfl, fun hne => absurd rfl hne⟩
  · rw [hdb] at hnew
    rw [show (update_content_status db rec.content.id st pa).drafts
          = db.drafts.map (apply_status_update rec.content.id st pa) from rfl,
        List.getElem?_map, hold, Option.map_some'] at hnew
    have hen : new = apply_status_update rec.content.id st pa old := by
      cases hnew; rfl
    by_cases hid : old.id = rec.content.id
    · have hmem_old : old ∈ db.drafts := by
        have := List.getElem?_mem hold
        exact this
      have hmem_rec : rec.content ∈ db.drafts := get_content_mem hlook
      have heq : old = rec.content :=
        List.inj_on_of_nodup_map hnodup hmem_old hmem_rec hid
      have hop : old.status = Status.pending_confirmation := heq ▸ hpend
      constructor
      · intro hterm
        rw [hop] at hterm
        cases hterm
      · intro _
        refine ⟨hop, ?_⟩
        have hns : new.status = st := by
          rw [hen, ← hid]
          exact apply_status_update_self st pa old
        rcases hst with ⟨h1, _⟩ | ⟨h1, _⟩ | ⟨h1, _⟩
        · exact Or.inl (by rw [hns, h1])
        · exact Or.inr (Or.inl (by rw [hns, h1]))
        · exact Or.inr (Or.inr (by rw [hns, h1]))
    · have hen' : new = old := by
        rw [hen, apply_status_update_other st pa hid]
      subst hen'
      exact ⟨fun _ => rfl, fun hne => absurd rfl hne⟩

/-- Concrete store used by the confirm-route witnesses: one active user
owning one pending draft with token "tok123". -/
def sample_user : UserRow :=
  ⟨1, "tid", "alice", "tok", "sec", some "alice@example.com", some "[\"AI\"]", true⟩

/-- The pending draft of the sample store. -/
def sample_draft : ContentRow :=
  ⟨1, 1, "hello world", Status.pending_confirmation, some "tok123", none⟩

/-- The sample store. -/
def sample_db : DB := ⟨[sample_user], [sample_draft]⟩

/-- A publish behaviour that always succeeds. -/
def publish_success : String → String → String → PublishBehavior :=
  fun _ _ _ => PublishBehavior.success

/-- The sample draft after a successful confirm at time 7. -/
def sample_draft_posted : ContentRow :=
  ⟨1, 1, "hello world", Status.posted, some "tok123", some 7⟩

/-- C1 witness: the transition-legality theorem applied to the sample
store with a successful publish. -/
theorem confirm_legal_transitions_witness :
    ((sample_db.drafts.map ContentRow.id).Nodup ∧
      sample_db.drafts[0]? = some sample_draft ∧
      ((confirm_content_route publish_success 7 sample_db "tok123").db).drafts[0]?
        = some sample_draft_posted) ∧
    ((sample_draft.status.isTerminal = true →
        sample_draft_posted = sample_draft) ∧
      (sample_draft_posted.status ≠ sample_draft.status →
        sample_draft.status = Status.pending_confirmation ∧
        (sample_draft_posted.status = Status.posted ∨
          sample_draft_posted.status = Status.failed_to_post ∨
          sample_draft_posted.status = Status.failed_user_inactive))) :=
  ⟨⟨by decide, by decide, by decide⟩,
   confirm_legal_transitions publish_success 7 sample_db "tok123" 0
     sample_draft sample_draft_posted (by decide) (by decide) (by decide)⟩

/-- A terminal status is never `pending_confirmation`. -/
theorem Status.terminal_ne_pending {st : Status} (h : st.isTerminal = true) :
    st ≠ Status.pending_confirmation := by
  intro he
  subst he
  exact absurd h (by decide)

/-- A confirm invocation that observes a pending draft performs exactly
one status write, to a terminal state; `posted_at` is stamped exactly on
the `posted` transition. -/
theorem confirm_pending_writes_terminal
    (publish : String → String → String → PublishBehavior) (now : Nat)
    (db : DB) (token : String) (rec : TokenLookup)
    (h1 : get_content_by_confirmation_token db token = some rec)
    (h2 : rec.content.status = Status.pending_confirmation) :
    ∃ st pa, st.isTerminal = true ∧
      ((st = Status.posted ∧ pa = some now) ∨
        (st ≠ Status.posted ∧ pa = (none : Option Nat))) ∧
      (confirm_content_route publish now db token).db =
        update_content_status db rec.content.id st pa := by
  unfold confirm_content_route
  simp only [h1]
  rw [if_neg (by simp [h2])]
  by_cases ha : rec.user_is_active = false
  · rw [if_pos ha]
    exact ⟨Status.failed_user_inactive, none, rfl, Or.inr ⟨by decide, rfl⟩, rfl⟩
  · rw [if_neg ha]
    cases publish rec.content.generated_content rec.oauth_token
        rec.oauth_token_secret with
    | success => exact ⟨Status.posted, some now, rfl, Or.inl ⟨rfl, rfl⟩, rfl⟩
    | failure msg =>
      exact ⟨Status.failed_to_post, none, rfl, Or.inr ⟨by decide, rfl⟩, rfl⟩
    | raises msg =>
      exact ⟨Status.failed_to_post, none, rfl, Or.inr ⟨by decide, rfl⟩, rfl⟩

/-! ## Claim C2 — idempotence of sequential confirms -/

/-- C2: after a first confirm invocation on a pending draft (which leaves
the draft in a terminal status), a second invocation with the same token
writes nothing, sends nothing, and responds with the informational
"already processed" indication carrying the status the first invocation
set — for every publish behaviour of either invocation. -/
theorem confirm_idempotent
    (publish publish2 : String → String → String → PublishBehavior)
    (now now2 : Nat) (db : DB) (token : String) (rec : TokenLookup)
    (h1 : get_content_by_confirmation_token db token = some rec)
    (h2 : rec.content.status = Status.pending_confirmation) :
    ∃ st : Status, st.isTerminal = true ∧
      (get_content_by_confirmation_token
          (confirm_content_route publish now db token).db token).map
        (fun r => r.content.status) = some st ∧
      confirm_content_route publish2 now2
          (confirm_content_route publish now db token).db token =
        ⟨(confirm_content_route publish now db token).db,
          ConfirmOutcome.already_processed st, false⟩ := by
  obtain ⟨st, pa, hterm, _, hdb⟩ :=
    confirm_pending_writes_terminal publish now db token rec h1 h2
  have hlk : get_content_by_confirmation_token
      (confirm_content_route publish now db token).db token =
      some { rec with
        content := apply_status_update rec.content.id st pa rec.content } := by
    rw [hdb]
    exact lookup_after_self_update st pa h1
  have hst' : ({ rec with
      content := apply_status_update rec.content.id st pa rec.content } :
        TokenLookup).content.status = st :=
    apply_status_update_self st pa rec.content
  refine ⟨st, hterm, ?_, ?_⟩
  · rw [hlk, Option.map_some']
    exact congrArg some hst'
  · have h2nd := second_confirm_noop publish2 now2 hlk
      (by rw [hst']; exact Status.terminal_ne_pending hterm)
    rw [h2nd, hst']

/-- Token-lookup record of the sample store's pending draft. -/
def sample_lookup : TokenLookup :=
  ⟨sample_draft, "alice", "tok", "sec", some "alice@example.com", true⟩

/-- C2 witness: the idempotence theorem applied to the sample store. -/
theorem confirm_idempotent_witness :
    (get_content_by_confirmation_token sample_db "tok123" = some sample_lookup ∧
      sample_lookup.content.status = Status.pending_confirmation) ∧
    (∃ st : Status, st.isTerminal = true ∧
      (get_content_by_confirmation_token
          (confirm_content_route publish_success 7 sample_db "tok123").db
          "tok123").map (fun r => r.content.status) = some st ∧
      confirm_content_route publish_success 9
          (confirm_content_route publish_success 7 sample_db "tok123").db
          "tok123" =
        ⟨(confirm_content_route publish_success 7 sample_db "tok123").db,
          ConfirmOutcome.already_processed st, false⟩) :=
  ⟨⟨by decide, by decide⟩,
   confirm_idempotent publish_success publish_success 7 9 sample_db "tok123"
     sample_lookup (by decide) (by decide)⟩

/-! ## Claim C8 — inactive owner -/

/-- C8: when the token resolves to a pending draft whose owning user is
inactive, the draft is transitioned to `failed_user_inactive`, the
outcome is the `user_inactive` error indication, no email is sent, and
the result is independent of the publish behaviour (no publish call is
consulted). -/
theorem confirm_inactive_user
    (publish publish' : String → String → String → PublishBehavior)
    (now now' : Nat) (db : DB) (token : String) (rec : TokenLookup)
    (h1 : get_content_by_confirmation_token db token = some rec)
    (h2 : rec.content.status = Status.pending_confirmation)
    (h3 : rec.user_is_active = false) :
    confirm_content_route publish now db token =
      ⟨update_content_status db rec.content.id Status.failed_user_inactive none,
        ConfirmOutcome.user_inactive, false⟩ ∧
    (get_content_by_confirmation_token
        (confirm_content_route publish now db token).db token).map
      (fun r => r.content.status) = some Status.failed_user_inactive ∧
    confirm_content_route publish now db token =
      confirm_content_route publish' now' db token := by
  have key : ∀ (pb : String → String → String → PublishBehavior) (n : Nat),
      confirm_content_route pb n db token =
        ⟨update_content_status db rec.content.id Status.failed_user_inactive none,
          ConfirmOutcome.user_inactive, false⟩ := by
    intro pb n
    unfold confirm_content_route
    simp only [h1]
    rw [if_neg (by simp [h2]), if_pos h3]
  refine ⟨key publish now, ?_, by rw [key publish now, key publish' now']⟩
  rw [key publish now]
  dsimp only
  rw [lookup_after_self_update Status.failed_user_inactive none h1,
    Option.map_some']
  exact congrArg some
    (apply_status_update_self Status.failed_user_inactive none rec.content)

/-- An inactive user owning a pending draft, for the C8 witness. -/
def sample_user_off : UserRow :=
  ⟨2, "tid2", "bob", "t2", "s2", none, some "[\"F1\"]", false⟩

/-- The pending draft owned by the inactive user. -/
def sample_draft_off : ContentRow :=
  ⟨5, 2, "race recap", Status.pending_confirmation, some "tokoff", none⟩

/-- Store with an inactive owner. -/
def sample_db_off : DB := ⟨[sample_user_off], [sample_draft_off]⟩

/-- Token-lookup record for the inactive owner's draft. -/
def sample_lookup_off : TokenLookup :=
  ⟨sample_draft_off, "bob", "t2", "s2", none, false⟩

/-- C8 witness: the inactive-owner theorem applied to the sample store. -/
theorem confirm_inactive_user_witness :
    (get_content_by_confirmation_token sample_db_off "tokoff" =
        some sample_lookup_off ∧
      sample_lookup_off.content.status = Status.pending_confirmation ∧
      sample_lookup_off.user_is_active = false) ∧
    (confirm_content_route publish_success 7 sample_db_off "tokoff" =
      ⟨update_content_status sample_db_off sample_lookup_off.content.id
          Status.failed_user_inactive none,
        ConfirmOutcome.user_inactive, false⟩ ∧
    (get_content_by_confirmation_token
        (confirm_content_route publish_success 7 sample_db_off "tokoff").db
        "tokoff").map (fun r => r.content.status) =
      some Status.failed_user_inactive ∧
    confirm_content_route publish_success 7 sample_db_off "tokoff" =
      confirm_content_route (fun _ _ _ => PublishBehavior.failure "403 Forbidden")
        11 sample_db_off "tokoff") :=
  ⟨⟨by decide, by decide, by decide⟩,
   confirm_inactive_user publish_success
     (fun _ _ _ => PublishBehavior.failure "403 Forbidden") 7 11 sample_db_off
     "tokoff" sample_lookup_off (by decide) (by decide) (by decide)⟩

/-! ## Claim C10 — posted_at is non-null only on posted drafts -/

/-- The C10 invariant: a draft carries a `posted_at` timestamp only when
its status is `posted`. -/
def posted_at_inv (db : DB) : Prop :=
  ∀ h ∈ db.drafts, h.posted_at ≠ none → h.status = Status.posted

/-- C10: drafts are inserted with `posted_at` NULL, insertion preserves
the invariant, every confirm invocation preserves the invariant (the
`failed_*` transitions pass no `posted_at`, only the `posted` transition
stamps one), and a status update without a `posted_at` argument leaves
the `posted_at` column of every row unchanged. -/
theorem posted_at_only_when_posted
    (publish : String → String → String → PublishBehavior) (now : Nat)
    (db : DB) (token : String) (uid : Nat) (text : String) (st : Status)
    (tok : Option String)
    (hnodup : (db.drafts.map ContentRow.id).Nodup)
    (hinv : posted_at_inv db) :
    ((add_generated_content db uid text st tok).1).drafts =
      db.drafts ++ [⟨next_content_id db, uid, text, st, tok, none⟩] ∧
    posted_at_inv (add_generated_content db uid text st tok).1 ∧
    posted_at_inv (confirm_content_route publish now db token).db ∧
    (∀ (cid : Nat) (stt : Status) (i : Nat) (old new : ContentRow),
      db.drafts[i]? = some old →
      (update_content_status db cid stt none).drafts[i]? = some new →
      new.posted_at = old.posted_at) := by
  refine ⟨rfl, ?_, ?_, ?_⟩
  · intro h hmem hpa
    rw [show ((add_generated_content db uid text st tok).1).drafts
        = db.drafts ++ [⟨next_content_id db, uid, text, st, tok, none⟩] from rfl] at hmem
    rcases List.mem_append.mp hmem with hl | hr
    · exact hinv h hl hpa
    · have : h = ⟨next_content_id db, uid, text, st, tok, none⟩ := by
        simpa using hr
      rw [this] at hpa
      exact absurd rfl hpa
  · rcases confirm_db_cases publish now db token with hsame | ⟨rec, wst, pa, hlook, hpend, hst, hdb⟩
    · rw [hsame]; exact hinv
    · rw [hdb]
      intro h' hmem hpa
      rw [show (update_content_status db rec.content.id wst pa).drafts
          = db.drafts.map (apply_status_update rec.content.id wst pa) from rfl] at hmem
      obtain ⟨h, hmem, heq⟩ := List.mem_map.mp hmem
      by_cases hid : h.id = rec.content.id
      · have hh : h = rec.content :=
          List.inj_on_of_nodup_map hnodup hmem (get_content_mem hlook) hid
        have hpend' : h.status = Status.pending_confirmation := hh ▸ hpend
        have hpn : h.posted_at = none := by
          by_contra hc
          have := hinv h hmem hc
          rw [hpend'] at this
          cases this
        rcases hst with ⟨h1, h2⟩ | ⟨h1, h2⟩ | ⟨h1, h2⟩
        · subst h1; subst h2
          rw [← heq, ← hid]
          exact apply_status_update_self Status.posted (some now) h
        · subst h1; subst h2
          rw [← heq] at hpa
          rw [show apply_status_update rec.content.id Status.failed_to_post none h
              = { h with status := Status.failed_to_post } from by
            unfold apply_status_update; rw [if_pos hid]] at hpa
          exact absurd hpn (by simpa using hpa)
        · subst h1; subst h2
          rw [← heq] at hpa
          rw [show apply_status_update rec.content.id Status.failed_user_inactive none h
              = { h with status := Status.failed_user_inactive } from by
            unfold apply_status_update; rw [if_pos hid]] at hpa
          exact absurd hpn (by simpa using hpa)
      · rw [← heq, apply_status_update_other wst pa hid] at hpa ⊢
        exact hinv h hmem hpa
  · intro cid stt i old new hold hnew
    rw [show (update_content_status db cid stt none).drafts
        = db.drafts.map (apply_status_update cid stt none) from rfl,
      List.getElem?_map, hold, Option.map_some'] at hnew
    have : new = apply_status_update cid stt none old := by cases hnew; rfl
    rw [this]
    unfold apply_status_update
    by_cases hid : old.id = cid
    · rw [if_pos hid]
    · rw [if_neg hid]

/-- C10 witness: the invariant theorem applied to the sample store. -/
theorem posted_at_only_when_posted_witness :
    ((sample_db.drafts.map ContentRow.id).Nodup ∧ posted_at_inv sample_db) ∧
    (((add_generated_content sample_db 1 "more text"
        Status.pending_confirmation (some "tok999")).1).drafts =
      sample_db.drafts ++
        [⟨next_content_id sample_db, 1, "more text",
          Status.pending_confirmation, some "tok999", none⟩] ∧
    posted_at_inv (add_generated_content sample_db 1 "more text"
        Status.pending_confirmation (some "tok999")).1 ∧
    posted_at_inv (confirm_content_route publish_success 7 sample_db "tok123").db ∧
    (∀ (cid : Nat) (stt : Status) (i : Nat) (old new : ContentRow),
      sample_db.drafts[i]? = some old →
      (update_content_status sample_db cid stt none).drafts[i]? = some new →
      new.posted_at = old.posted_at)) :=
  ⟨⟨by decide, by unfold posted_at_inv; decide⟩,
   posted_at_only_when_posted publish_success 7 sample_db "tok123" 1
     "more text" Status.pending_confirmation (some "tok999") (by decide)
     (by unfold posted_at_inv; decide)⟩

/-! ## Claim C9 — per-user failure isolation in the batch job -/

/-- The accumulator form of the batch fold: running it from any starting
result list just prepends that list. -/
theorem job_foldl_acc (env : CronEnv) :
    ∀ (users : List UserRow) (d : DB) (l : List (Except String Unit)),
      users.foldl (job_step env) (d, l) =
        ((scheduled_content_generation_job env d users).1,
          l ++ (scheduled_content_generation_job env d users).2) := by
  intro users
  induction users with
  | nil =>
    intro d l
    simp [scheduled_content_generation_job]
  | cons u us ih =>
    intro d l
    rw [List.foldl_cons,
      show job_step env (d, l) u =
        ((process_user env d u).1, l ++ [(process_user env d u).2]) from rfl,
      ih]
    conv_rhs => rw [show scheduled_content_generation_job env d (u :: us) =
        us.foldl (job_step env) (job_step env (d, []) u) from by
      unfold scheduled_content_generation_job
      rw [List.foldl_cons]]
    rw [show job_step env (d, ([] : List (Except String Unit))) u =
        ((process_user env d u).1, [(process_user env d u).2]) from rfl, ih]
    simp

/-- C9: the batch job processes every user in order, and the processing
of the users after any given user is exactly the batch job restarted from
the store state that user left — independently of whether that user's
iteration ended normally or with a caught exception.  In particular the
result list has one entry per user and a failing user never aborts the
remainder of the batch. -/
theorem batch_failures_isolated (env : CronEnv) (db : DB)
    (us : List UserRow) (u : UserRow) (vs : List UserRow) :
    scheduled_content_generation_job env db (us ++ u :: vs) =
      ((scheduled_content_generation_job env
          (process_user env (scheduled_content_generation_job env db us).1 u).1
          vs).1,
        (scheduled_content_generation_job env db us).2 ++
          (process_user env (scheduled_content_generation_job env db us).1 u).2 ::
          (scheduled_content_generation_job env
            (process_user env (scheduled_content_generation_job env db us).1 u).1
            vs).2) ∧
    (scheduled_content_generation_job env db (us ++ u :: vs)).2.length =
      us.length + 1 + vs.length := by
  have hlen : ∀ (d : DB) (ws : List UserRow),
      (scheduled_content_generation_job env d ws).2.length = ws.length := by
    intro d ws
    induction ws generalizing d with
    | nil => simp [scheduled_content_generation_job]
    | cons w ws ih =>
      rw [show scheduled_content_generation_job env d (w :: ws) =
          ws.foldl (job_step env) (job_step env (d, []) w) from by
        unfold scheduled_content_generation_job
        rw [List.foldl_cons]]
      rw [show job_step env (d, ([] : List (Except String Unit))) w =
          ((process_user env d w).1, [(process_user env d w).2]) from rfl,
        job_foldl_acc]
      simp [ih]
  have hsplit : scheduled_content_generation_job env db (us ++ u :: vs) =
      ((scheduled_content_generation_job env
          (process_user env (scheduled_content_generation_job env db us).1 u).1
          vs).1,
        (scheduled_content_generation_job env db us).2 ++
          (process_user env (scheduled_content_generation_job env db us).1 u).2 ::
          (scheduled_content_generation_job env
            (process_user env (scheduled_content_generation_job env db us).1 u).1
            vs).2) := by
    unfold scheduled_content_generation_job
    rw [List.foldl_append, List.foldl_cons]
    rw [show us.foldl (job_step env) ((db, []) :
          DB × List (Except String Unit)) =
        scheduled_content_generation_job env db us from rfl]
    rw [show job_step env (scheduled_content_generation_job env db us) u =
        ((process_user env (scheduled_content_generation_job env db us).1 u).1,
          (scheduled_content_generation_job env db us).2 ++
            [(process_user env (scheduled_content_generation_job env db us).1
              u).2]) from rfl]
    rw [job_foldl_acc]
    simp
    exact ⟨rfl, rfl⟩
  refine ⟨hsplit, ?_⟩
  rw [hsplit]
  simp [hlen]
  omega

/-! ## Claim C5 — repeat OAuth completion -/

/-- Finding a user by twitter_id commutes with a row map that preserves
twitter_id. -/
theorem find_user_map (l : List UserRow) (f : UserRow → UserRow)
    (hf : ∀ u, (f u).twitter_id = u.twitter_id) (tid : String) :
    (l.map f).find? (fun u => u.twitter_id = tid) =
      (l.find? (fun u => u.twitter_id = tid)).map f := by
  rw [List.find?_map]
  have hp : ((fun u => decide (u.twitter_id = tid)) ∘ f) =
      (fun u : UserRow => decide (u.twitter_id = tid)) := by
    funext u
    simp [Function.comp, hf]
  rw [hp]

/-- Existing user record used by the C5 counterexample: stored email and
topics present, `is_active` false. -/
def c5_row : UserRow :=
  ⟨1, "tid1", "alice", "t0", "s0", some "alice@example.com", some "old-topics",
   false⟩

/-- Store with the existing user. -/
def c5_db : DB := ⟨[c5_row], []⟩

/-- C5 counterexample: under the PostgreSQL branch, a repeat OAuth
completion with `email = None` and `topics = None` refreshes the
credentials and re-activates the user and preserves the topics, but
overwrites the stored email with NULL instead of preserving it. -/
theorem repeat_oauth_erases_email_cex :
    (create_or_update_user true c5_db "tid1" "alice" "t1" "s1" none none).users
      = [⟨1, "tid1", "alice", "t1", "s1", none, some "old-topics", true⟩] ∧
    c5_row.email = some "alice@example.com" := by
  constructor
  · rfl
  · rfl

/-- C5 (amended): on a repeat OAuth completion for a known twitter_id,
the credential pair and screen name are refreshed and the user is
re-activated; the stored topics are preserved whenever the topics
argument is None (both backends); the stored email is preserved when the
email argument is None only under the SQLite backend — under the
PostgreSQL backend the email column is overwritten with the argument,
i.e. set to NULL. -/
theorem repeat_oauth_refreshes (use_postgres : Bool) (db : DB)
    (tid sn ot os : String) (email topics : Option String) (row : UserRow)
    (hrow : find_user_by_twitter_id db tid = some row) :
    ∃ row', find_user_by_twitter_id
        (create_or_update_user use_postgres db tid sn ot os email topics) tid
          = some row' ∧
      row'.oauth_token = ot ∧ row'.oauth_token_secret = os ∧
      row'.screen_name = sn ∧ row'.is_active = true ∧
      (topics = none → row'.topics = row.topics) ∧
      (email = none →
        (use_postgres = false → row'.email = row.email) ∧
        (use_postgres = true → row'.email = none)) := by
  unfold create_or_update_user
  rw [hrow]
  dsimp only
  cases use_postgres with
  | true =>
    rw [if_pos rfl]
    unfold find_user_by_twitter_id
    dsimp only
    rw [find_user_map _ _ (fun u => by by_cases h : u.id = row.id <;> simp [h]) tid]
    rw [show db.users.find? (fun u => u.twitter_id = tid) = some row from hrow,
      Option.map_some']
    rw [if_pos rfl]
    refine ⟨_, rfl, rfl, rfl, rfl, rfl, ?_, ?_⟩
    · intro ht
      subst ht
      rfl
    · intro he
      subst he
      exact ⟨fun hfalse => absurd hfalse (by decide), fun _ => rfl⟩
  | false =>
    rw [if_neg (by decide)]
    unfold find_user_by_twitter_id
    dsimp only
    rw [find_user_map _ _ (fun u => by by_cases h : u.id = row.id <;> simp [h]) tid]
    rw [show db.users.find? (fun u => u.twitter_id = tid) = some row from hrow,
      Option.map_some']
    rw [if_pos rfl]
    refine ⟨_, rfl, rfl, rfl, rfl, rfl, ?_, ?_⟩
    · intro ht
      subst ht
      cases row.topics <;> rfl
    · intro he
      subst he
      exact ⟨fun _ => rfl, fun htrue => absurd htrue (by decide)⟩

/-- C5 witness: the amended theorem applied to the concrete store, under
the SQLite backend. -/
theorem repeat_oauth_refreshes_witness :
    find_user_by_twitter_id c5_db "tid1" = some c5_row ∧
    ∃ row', find_user_by_twitter_id
        (create_or_update_user false c5_db "tid1" "alice" "t1" "s1" none none)
        "tid1" = some row' ∧
      row'.oauth_token = "t1" ∧ row'.oauth_token_secret = "s1" ∧
      row'.screen_name = "alice" ∧ row'.is_active = true ∧
      ((none : Option String) = none → row'.topics = c5_row.topics) ∧
      ((none : Option String) = none →
        (false = false → row'.email = c5_row.email) ∧
        (false = true → row'.email = none)) :=
  ⟨by decide,
   repeat_oauth_refreshes false c5_db "tid1" "alice" "t1" "s1" none none c5_row
     (by decide)⟩

/-! ## Claim C6 — batch-trigger access control -/

/-- C6 counterexample: with the secret configured and an Authorization
header that does not match it (here: absent), a request whose user agent
contains "vercel-cron" is accepted and the job runs. -/
theorem trigger_auth_cex :
    (some "topsecret" : Option String).getD "" ≠ "" ∧
    (⟨"vercel-cron/1.0", none⟩ : TriggerRequest).auth_header ≠
      some ("Bearer " ++ "topsecret") ∧
    trigger_content_generation (some "topsecret") ⟨"vercel-cron/1.0", none⟩ =
      ⟨false, true⟩ := by
  refine ⟨by decide, by decide, ?_⟩
  decide

/-- C6 (amended): the trigger endpoint rejects a request with 401 (and
does not run the job) exactly when the secret is set to a non-empty
value, the user agent does not contain "vercel-cron" (case-insensitive),
and the Authorization header differs from "Bearer <secret>"; the job runs
exactly on accepted requests, and with no secret configured every request
is accepted. -/
theorem trigger_auth_spec (cron_secret : Option String) (req : TriggerRequest) :
    ((trigger_content_generation cron_secret req).unauthorized = true ↔
      (cron_secret.getD "" ≠ "" ∧
        is_vercel_cron_request req.user_agent = false ∧
        req.auth_header ≠ some ("Bearer " ++ cron_secret.getD ""))) ∧
    (trigger_content_generation cron_secret req).job_ran =
      !(trigger_content_generation cron_secret req).unauthorized ∧
    (cron_secret = none →
      trigger_content_generation cron_secret req = ⟨false, true⟩) := by
  unfold trigger_content_generation
  dsimp only
  by_cases h : cron_secret.getD "" ≠ "" ∧
      is_vercel_cron_request req.user_agent = false ∧
      req.auth_header ≠ some ("Bearer " ++ cron_secret.getD "")
  · rw [if_pos h]
    refine ⟨iff_of_true rfl h, rfl, ?_⟩
    intro hn
    subst hn
    exact absurd rfl h.1
  · rw [if_neg h]
    exact ⟨iff_of_false (by decide) h, rfl, fun _ => rfl⟩

/-- C6 witness: the access-control characterization applied to a request
carrying the matching bearer header. -/
theorem trigger_auth_spec_witness :
    ((trigger_content_generation (some "s3")
        ⟨"curl/8.0", some "Bearer s3"⟩).unauthorized = true ↔
      ((some "s3" : Option String).getD "" ≠ "" ∧
        is_vercel_cron_request "curl/8.0" = false ∧
        (some "Bearer s3" : Option String) ≠
          some ("Bearer " ++ (some "s3" : Option String).getD ""))) ∧
    (trigger_content_generation (some "s3")
        ⟨"curl/8.0", some "Bearer s3"⟩).job_ran =
      !(trigger_content_generation (some "s3")
        ⟨"curl/8.0", some "Bearer s3"⟩).unauthorized ∧
    ((some "s3" : Option String) = none →
      trigger_content_generation (some "s3") ⟨"curl/8.0", some "Bearer s3"⟩ =
        ⟨false, true⟩) :=
  trigger_auth_spec (some "s3") ⟨"curl/8.0", some "Bearer s3"⟩
